import Mathlib

/-
  Verification development for the devv repository (Flask video upload,
  content dedup, ffmpeg stream supervisor, NSE market-data cache).
  Shallow embedding: each definition below is a direct translation of a
  function of new.py, main.py or Nse.py; line references are given at
  each definition.  The SHA-256 digest (compute_file_hash) is an external
  deterministic function and is passed in as an abstract string argument:
  two uploads have byte-identical content exactly when that argument is
  equal.
-/

namespace Devv

/-! ## Upload pipeline state (new.py lines 21-27)

  files        : paths currently present in the uploads Content Store
  video_hashes : the Dedup Index, a dict from content hash to videoId
  active       : videoIds that currently have a record in active_streams -/

structure SysState where
  files : List String
  video_hashes : List (String × String)
  active : List String
deriving DecidableEq, Repr

/-- Value of key h in the Dedup Index, as in the dict access video_hashes[h]. -/
def lookupHash (s : SysState) (h : String) : Option String :=
  ((s.video_hashes.find? (fun p => p.1 == h)).map (·.2))

/-- Dict assignment m[k] = v: replace the binding when k is present,
  append it otherwise. -/
def setHash (m : List (String × String)) (k v : String) : List (String × String) :=
  if (m.find? (fun p => p.1 == k)).isSome then
    m.map (fun p => if p.1 == k then (k, v) else p)
  else m ++ [(k, v)]

/-- Result of the background post-processing step of one upload.
  timer is the delay in seconds of the retention timer armed for this
  asset, none when no timer is armed. -/
structure PostResult where
  state : SysState
  timer : Option Nat
deriving DecidableEq, Repr

/-- new.py lines 78-88, the body of post_process run after upload_video:
  if the hash is already in video_hashes the just-written file is removed
  and no timer is armed; otherwise the hash is inserted and a timer of
  15 * 60 seconds is armed (threading.Timer at line 86). -/
def post_process (s : SysState) (file_hash video_id save_path : String) : PostResult :=
  match s.video_hashes.find? (fun p => p.1 == file_hash) with
  | some _ => ⟨{ s with files := s.files.filter (fun p => !(p == save_path)) }, none⟩
  | none => ⟨{ s with video_hashes := setHash s.video_hashes file_hash video_id },
             some (15 * 60)⟩

/-- new.py lines 39-49: the retention timer callback.  When the videoId
  has no record in active_streams and the file still exists, the file is
  removed and every Dedup Index entry whose value is this videoId is
  deleted (the hash-removal loop is inside the os.path.exists branch). -/
def delete_if_not_streamed (s : SysState) (video_id file_path : String) : SysState :=
  if s.active.contains video_id then s
  else if s.files.contains file_path then
    { s with files := s.files.filter (fun p => !(p == file_path)),
             video_hashes := s.video_hashes.filter (fun pr => !(pr.2 == video_id)) }
  else s

/-- Effect of opening a session on the upload-side state:
  run_ffmpeg_stream (new.py line 150) writes active_streams[video_id],
  so video_id joins the registry key set that delete_if_not_streamed
  consults. -/
def sysSessionOpen (s : SysState) (video_id : String) : SysState :=
  if s.active.contains video_id then s
  else { s with active := s.active ++ [video_id] }

/-- Effect of active_streams.pop(video_id, None): the explicit stop
  (main.py line 244) or the 300 second grace timer (new.py line 184)
  removes the record, so video_id leaves the registry key set while the
  stored file may still be present (the post-stream deletion retry loop
  can exhaust its five attempts, and a stop pops the record before the
  finally block of the monitor removes the file). -/
def sysSessionPop (s : SysState) (video_id : String) : SysState :=
  { s with active := s.active.filter (fun v => !(v == video_id)) }

/-! ## Interleaved execution of two post_process tasks (new.py lines 78-90)

  Each upload starts its own thread running post_process.  Inside one
  task, the membership test file_hash in video_hashes (line 81) and the
  branch acting on its outcome (lines 82 or 85-86) are separate
  interpreter steps: the thread can be preempted between them.  A task is
  therefore modelled with three phases: before the check, after the check
  with the recorded decision, and done. -/

inductive TaskPhase
  | toCheck
  | toAct (isDup : Bool)
  | taskDone
deriving DecidableEq, Repr

structure PTask where
  phase : TaskPhase
  hash : String
  vid : String
  path : String
deriving DecidableEq, Repr

/-- One interpreter step of one post_process task. -/
def taskStep (sys : SysState) (t : PTask) : SysState × PTask :=
  match t.phase with
  | .toCheck =>
      let dup := (sys.video_hashes.find? (fun p => p.1 == t.hash)).isSome
      (sys, { t with phase := TaskPhase.toAct dup })
  | .toAct true =>
      ({ sys with files := sys.files.filter (fun p => !(p == t.path)) },
       { t with phase := .taskDone })
  | .toAct false =>
      ({ sys with video_hashes := setHash sys.video_hashes t.hash t.vid },
       { t with phase := .taskDone })
  | .taskDone => (sys, t)

structure RaceState where
  sys : SysState
  t1 : PTask
  t2 : PTask
deriving DecidableEq, Repr

/-- Run one step of task 1 (who = true) or task 2 (who = false). -/
def raceStep (st : RaceState) (who : Bool) : RaceState :=
  if who then
    let r := taskStep st.sys st.t1
    ⟨r.1, r.2, st.t2⟩
  else
    let r := taskStep st.sys st.t2
    ⟨r.1, st.t1, r.2⟩

def runRace (st : RaceState) (sched : List Bool) : RaceState :=
  sched.foldl raceStep st

/-- Two uploads of byte-identical content (same hash "H"), both already
  written to the Content Store, both post_process tasks about to run. -/
def raceInit : RaceState :=
  ⟨⟨["uploads/a_v1.mp4", "uploads/b_v2.mp4"], [], []⟩,
   ⟨.toCheck, "H", "v1", "uploads/a_v1.mp4"⟩,
   ⟨.toCheck, "H", "v2", "uploads/b_v2.mp4"⟩⟩

/-! ## Session registry (active_streams) and its operations -/

inductive Status
  | starting
  | live
  | completed
  | stopped
  | error
deriving DecidableEq, Repr

/-- One record of active_streams.  hasProc: the process field of the dict
  is not None; procExited: process.poll() would return a non-None value.
  The task_id and start_time fields carry no lifecycle information and
  are omitted. -/
structure Session where
  status : Status
  hasProc : Bool
  procExited : Bool
deriving DecidableEq, Repr

/-- main.py lines 257-259, the body of the reconciliation in
  get_stream_status: when the record holds a process that has exited,
  status is rewritten to completed and the process field is cleared. -/
def reconcile (s : Session) : Session :=
  if s.hasProc && s.procExited then { s with status := .completed, hasProc := false }
  else s

def regLookup (reg : List (String × Session)) (video_id : String) : Option Session :=
  (reg.find? (fun p => p.1 == video_id)).map (·.2)

/-- Dict assignment active_streams[video_id] = s. -/
def regSet (reg : List (String × Session)) (video_id : String) (s : Session) :
    List (String × Session) :=
  if (reg.find? (fun p => p.1 == video_id)).isSome then
    reg.map (fun p => if p.1 == video_id then (video_id, s) else p)
  else reg ++ [(video_id, s)]

/-- active_streams.pop(video_id, None). -/
def regRemove (reg : List (String × Session)) (video_id : String) :
    List (String × Session) :=
  reg.filter (fun p => !(p.1 == video_id))

/-- A child process: running is false once it has exited or been killed;
  respondsToTerminate tells whether a graceful terminate within the
  bounded wait suffices. -/
structure Proc where
  running : Bool
  respondsToTerminate : Bool
deriving DecidableEq, Repr

/-- main.py lines 110-119 (same code in new.py lines 99-107): when the
  process is still running, terminate is sent and process.wait(timeout=5)
  follows.  When the process honors terminate it exits and the following
  poll() is non-None, so kill() is skipped; when it ignores terminate,
  wait raises TimeoutExpired, the catch-all except swallows the
  exception and kill() is never reached.  The force-kill at line 117 is
  unreachable on either path, so a terminate-ignoring process is left
  running. -/
def cleanup_process (p : Proc) : Proc :=
  if p.running then
    if p.respondsToTerminate then { p with running := false }
    else p
  else p

structure StopOutcome where
  httpStatus : Nat
  registry : List (String × Session)
  statusWritten : Option Status
  cleanupInvoked : Bool
deriving DecidableEq, Repr

/-- main.py lines 230-245: POST /stop/videoId.  Unknown id gives 404 and
  leaves the registry alone; otherwise cleanup_process is invoked on the
  stored process (when present), status is set to stopped and the record
  is popped at once. -/
def stop_stream (reg : List (String × Session)) (video_id : String) : StopOutcome :=
  match regLookup reg video_id with
  | none => ⟨404, reg, none, false⟩
  | some s => ⟨200, regRemove reg video_id, some .stopped, s.hasProc⟩

/-- main.py lines 247-260: GET /streams/videoId.  Returns the HTTP code,
  the returned snapshot and the registry after the opportunistic
  reconciliation. -/
def get_stream_status (reg : List (String × Session)) (video_id : String) :
    Nat × Option Session × List (String × Session) :=
  match regLookup reg video_id with
  | none => (404, none, reg)
  | some s =>
    if s.hasProc && s.procExited then
      (200, some (reconcile s), regSet reg video_id (reconcile s))
    else (200, some s, reg)

/-! ## Observable status history of one session

  All registry writes that touch one videoId, as small steps over the
  Option Session held by the registry for that id:
    eRecord   new.py line 150 / main.py line 158: record created, starting
    eLive     line 158/167: status set to live after the settle sleep
    eComplete line 160/172: status set to completed after process.wait
    eError    line 163/174: except path sets status to error
    eCleanup  cleanup_process in the finally block on a process that
              honors terminate: the process is now gone
    eProcExit the child process exits on its own (environment event)
    eStop     stop_stream: record popped
    eGet      get_stream_status: opportunistic reconciliation
    eGracePop the 300 second grace timer pops the record
  A step on an absent record is the KeyError path of the source and
  leaves the registry unchanged. -/

inductive Event
  | eRecord
  | eLive
  | eComplete
  | eError
  | eCleanup
  | eProcExit
  | eStop
  | eGet
  | eGracePop
deriving DecidableEq, Repr

def stepE : Option Session → Event → Option Session
  | _, .eRecord => some ⟨.starting, true, false⟩
  | none, _ => none
  | some s, .eLive => some { s with status := .live }
  | some s, .eComplete => some { s with status := .completed }
  | some s, .eError => some { s with status := .error }
  | some s, .eCleanup => some { s with procExited := true }
  | some s, .eProcExit => some { s with procExited := true }
  | some s, .eGet => some (reconcile s)
  | some _, .eStop => none
  | some _, .eGracePop => none

/-- Program order of the monitor thread of run_ffmpeg_stream: the record
  is created first, live is only set after the record, completed only
  after live, error from the try block after the record, and the finally
  cleanup after completed or error.  Requests (eStop, eGet, eGracePop)
  and the environment (eProcExit) interleave freely. -/
inductive MonPhase
  | ph0
  | phRec
  | phLive
  | phDoneC
  | phDoneE
  | phClean
deriving DecidableEq, Repr

def monStep : MonPhase → Event → Option MonPhase
  | .ph0, .eRecord => some .phRec
  | _, .eRecord => none
  | .phRec, .eLive => some .phLive
  | _, .eLive => none
  | .phLive, .eComplete => some .phDoneC
  | _, .eComplete => none
  | .phRec, .eError => some .phDoneE
  | .phLive, .eError => some .phDoneE
  | _, .eError => none
  | .phDoneC, .eCleanup => some .phClean
  | .phDoneE, .eCleanup => some .phClean
  | _, .eCleanup => none
  | ph, _ => some ph

def runAux : MonPhase → Option Session → List Event → Option (MonPhase × Option Session)
  | ph, st, [] => some (ph, st)
  | ph, st, ev :: rest =>
    match monStep ph ev with
    | none => none
    | some ph2 => runAux ph2 (stepE st ev) rest

/-- The trace respects the program order of the monitor thread. -/
def okTrace (tr : List Event) : Prop :=
  (runAux .ph0 none tr).isSome = true

/-- Status held by the registry after the trace, none when no record. -/
def statusAfter (tr : List Event) : Option Status :=
  (tr.foldl stepE none).map Session.status

/-! ## Process supervisor launch path (new.py lines 109-202) -/

/-- new.py lines 116-137: the destination URL of the platform dispatch,
  none on the unsupported-platform early return. -/
def output_url (platform stream_key : String) : Option String :=
  if platform == "youtube" then
    some ("rtmp://a.rtmp.youtube.com/live2/" ++ stream_key)
  else if platform == "facebook" then
    some ("rtmps://live-api-s.facebook.com:443/rtmp/" ++ stream_key)
  else if platform == "instagram" then
    some ("rtmps://edgetee-upload-del2-1.xx.fbcdn.net:443/rtmp/" ++ stream_key)
  else if platform == "twitter" then
    some ("rtmps://live.twitter.com/" ++ stream_key)
  else none

/-- new.py lines 118-135: the per-platform encoder flags. -/
def common_flags (platform : String) : String :=
  if platform == "youtube" then
    "-c:v libx264 -preset veryfast -b:v 2500k -maxrate 2500k -bufsize 512k"
  else if platform == "facebook" then
    "-c:v libx264 -preset veryfast -b:v 4500k -minrate 4500k -maxrate 4500k -bufsize 9000k -x264-params nal-hrd=cbr:force-cfr=1 -c:a aac -b:a 128k -ar 44100 -ac 2"
  else if platform == "instagram" then
    "-c:v libx264 -preset veryfast -b:v 6000k -minrate 6000k -maxrate 6000k -bufsize 12000k -x264-params nal-hrd=cbr:force-cfr=1 -c:a aac -b:a 128k -ar 44100 -ac 2"
  else if platform == "twitter" then
    "-c:v libx264 -preset veryfast -b:v 2500k -maxrate 2500k -bufsize 5000k -c:a aac -b:a 128k -ar 44100 -ac 2"
  else ""

/-- new.py line 114. -/
def ffmpeg_input (loops : Nat) (video_path : String) : String :=
  "-re -stream_loop " ++ toString loops ++ " -i \"" ++ video_path ++ "\""

/-- Registry plus the list of commands handed to subprocess.Popen so far. -/
structure LaunchState where
  registry : List (String × Session)
  spawnedCmds : List String
deriving DecidableEq, Repr

/-- new.py lines 109-155, the launch phase of run_ffmpeg_stream: on an
  unrecognized platform the function returns the message at line 137
  before any Popen and before any registry write; otherwise the command
  of line 139 is spawned (line 142) and the record with status starting
  is written to active_streams (line 150). -/
def run_ffmpeg_stream (st : LaunchState) (video_path stream_key : String) (loops : Nat)
    (video_id platform : String) : LaunchState × Option String :=
  match output_url platform stream_key with
  | none => (st, some ("Unsupported platform: " ++ platform))
  | some url =>
    let base_cmd := "/usr/local/bin/ffmpeg " ++ ffmpeg_input loops video_path ++ " "
      ++ common_flags platform ++ " -f flv \"" ++ url ++ "\""
    ({ registry := regSet st.registry video_id ⟨.starting, true, false⟩,
       spawnedCmds := st.spawnedCmds ++ [base_cmd] }, none)

/-- Bool test: sub occurs inside hay, as the Python expression
  video_id in f. -/
def strContainsSub (hay sub : String) : Bool :=
  (List.range (hay.toList.length + 1)).any (fun i => sub.toList.isPrefixOf (hay.toList.drop i))

/-- new.py lines 186-202: the HTTP code returned by POST /start/videoId.
  body is the list of keys of the JSON body.  The endpoint checks the
  four required fields and the presence of a stored file whose name
  contains the videoId, spawns the background thread and answers 200; it
  consults neither the registry nor the platform value. -/
def start_stream (uploads : List String) (video_id : String) (body : List String) : Nat :=
  if !(["streamKey", "loops", "taskId", "platform"].all (fun f => body.contains f)) then 400
  else if (uploads.filter (fun f => strContainsSub f video_id)).isEmpty then 404
  else 200

/-! ## Upload endpoint (new.py lines 51-94) -/

def ALLOWED_EXTENSIONS : List String := ["mp4", "mov", "avi", "mkv", "webm"]

/-- The Python expression filename.rsplit(".", 1)[1].lower(): the part of
  the name after the last dot, lowercased (meaningful when a dot is
  present, which allowed_file checks first). -/
def ext_of (filename : String) : String :=
  String.mk (((filename.toList.reverse.takeWhile (fun c => !(c == '.'))).reverse).map
    Char.toLower)

/-- new.py lines 29-30. -/
def allowed_file (filename : String) : Bool :=
  filename.toList.contains '.' && ALLOWED_EXTENSIONS.contains (ext_of filename)

structure UploadResponse where
  message : String
  videoId : String
  filename : String
  duration : Nat
deriving DecidableEq, Repr

/-- new.py lines 51-94: the synchronous part of upload_video.  content is
  the byte stream; the uuid of line 59 is the video_id argument.  On
  success the response of lines 70-75 is produced together with the bytes
  written to the Content Store; hashing and dedup run afterwards in
  post_process.  The duration field is the literal 120 of line 74. -/
def upload_video (email orig_filename : String) (content : List Nat) (video_id : String) :
    Except (Nat × String) (UploadResponse × List Nat) :=
  if orig_filename = "" then .error (400, "No selected file")
  else if allowed_file orig_filename then
    .ok (⟨"File uploaded successfully", video_id,
          email ++ "_" ++ video_id ++ "." ++ ext_of orig_filename, 120⟩, content)
  else .error (400, "Invalid file type")

/-! ## NSE market-data cache (new.py lines 207-230, Nse.py lines 7-26) -/

structure CacheEntry where
  data : String
  timestamp : Nat
deriving DecidableEq, Repr

def cacheLookup (c : List (String × CacheEntry)) (k : String) : Option CacheEntry :=
  (c.find? (fun p => p.1 == k)).map (·.2)

def cacheSet (c : List (String × CacheEntry)) (k : String) (v : CacheEntry) :
    List (String × CacheEntry) :=
  if (c.find? (fun p => p.1 == k)).isSome then
    c.map (fun p => if p.1 == k then (k, v) else p)
  else c ++ [(k, v)]

/-- new.py lines 223-230: the upstream fetch.  upstream is the outcome of
  the requests.get call chain: ok carries the JSON body, error the
  exception text.  On success the cache entry is written; on failure the
  500 error body is returned and the cache is untouched. -/
def nse_fetch (cache : List (String × CacheEntry)) (symbol : String) (now : Nat)
    (upstream : Except String String) : (Nat × String) × List (String × CacheEntry) :=
  match upstream with
  | .ok d => ((200, d), cacheSet cache symbol ⟨d, now⟩)
  | .error e => ((500, e), cache)

/-- new.py lines 211-230: GET /nse-index.  A cache entry younger than 30
  seconds is served as is without touching upstream; otherwise the
  upstream fetch runs. -/
def nse_index (cache : List (String × CacheEntry)) (symbol : String) (now : Nat)
    (upstream : Except String String) : (Nat × String) × List (String × CacheEntry) :=
  match cacheLookup cache symbol with
  | some entry =>
    if now - entry.timestamp < 30 then ((200, entry.data), cache)
    else nse_fetch cache symbol now upstream
  | none => nse_fetch cache symbol now upstream

/-! ## Helper lemmas -/

theorem not_mem_filter_beq_self (l : List String) (x : String) :
    x ∉ l.filter (fun p => !(p == x)) := by
  intro h
  simp [List.mem_filter] at h

theorem mem_filter_snd_ne (l : List (String × String)) (v : String) :
    ∀ pr ∈ l.filter (fun pr => !(pr.2 == v)), pr.2 ≠ v := by
  intro pr h
  have h2 := (List.mem_filter.mp h).2
  simp at h2
  exact h2

theorem lookupHash_none_find (s : SysState) (h : String)
    (hl : lookupHash s h = none) :
    s.video_hashes.find? (fun p => p.1 == h) = none := by
  unfold lookupHash at hl
  cases hf : s.video_hashes.find? (fun p => p.1 == h) with
  | none => rfl
  | some pr => rw [hf] at hl; simp at hl

/-! ## Claim theorems -/

/-- C1: when the hash of an upload is already present in the Dedup Index,
  post_process deletes the just-written file, arms no retention timer for
  the discarded asset, leaves the Dedup Index untouched, and the index
  still maps that hash to the earlier asset id. -/
theorem upload_duplicate_discarded (s : SysState)
    (file_hash video_id save_path earlier : String)
    (h : lookupHash s file_hash = some earlier) :
    save_path ∉ (post_process s file_hash video_id save_path).state.files ∧
    (post_process s file_hash video_id save_path).timer = none ∧
    (post_process s file_hash video_id save_path).state.video_hashes = s.video_hashes ∧
    lookupHash (post_process s file_hash video_id save_path).state file_hash =
      some earlier := by
  unfold lookupHash at h
  cases hf : s.video_hashes.find? (fun p => p.1 == file_hash) with
  | none => rw [hf] at h; simp at h
  | some pr =>
    unfold post_process
    rw [hf]
    refine ⟨not_mem_filter_beq_self _ _, rfl, rfl, ?_⟩
    rw [hf] at h
    unfold lookupHash
    simp only
    rw [hf]
    exact h

theorem upload_duplicate_discarded_witness :
    "uploads/b_v2.mp4" ∉
      (post_process ⟨["uploads/b_v2.mp4"], [("h1", "v1")], []⟩ "h1" "v2"
        "uploads/b_v2.mp4").state.files ∧
    (post_process ⟨["uploads/b_v2.mp4"], [("h1", "v1")], []⟩ "h1" "v2"
      "uploads/b_v2.mp4").timer = none ∧
    (post_process ⟨["uploads/b_v2.mp4"], [("h1", "v1")], []⟩ "h1" "v2"
      "uploads/b_v2.mp4").state.video_hashes = [("h1", "v1")] ∧
    lookupHash (post_process ⟨["uploads/b_v2.mp4"], [("h1", "v1")], []⟩ "h1" "v2"
      "uploads/b_v2.mp4").state "h1" = some "v1" :=
  upload_duplicate_discarded ⟨["uploads/b_v2.mp4"], [("h1", "v1")], []⟩
    "h1" "v2" "uploads/b_v2.mp4" "v1" (by decide)

/-- C2: the Dedup Index check-and-insert of post_process is not atomic.
  With two uploads of byte-identical content (hash "H") whose background
  tasks interleave check, check, insert, insert, both tasks finish, both
  decide not-a-duplicate, and both files survive in the Content Store,
  so exactly one surviving asset does not hold on the code. -/
theorem dedup_check_insert_race :
    (runRace raceInit [true, false, true, false]).t1.phase = .taskDone ∧
    (runRace raceInit [true, false, true, false]).t2.phase = .taskDone ∧
    "uploads/a_v1.mp4" ∈ (runRace raceInit [true, false, true, false]).sys.files ∧
    "uploads/b_v2.mp4" ∈ (runRace raceInit [true, false, true, false]).sys.files := by
  decide

/-- C7 amended: for a non-duplicate upload post_process arms a retention
  timer of 15 * 60 seconds; the expiry callback delete_if_not_streamed is
  guarded by fire-time state, not by history: it leaves the state
  untouched whenever a session record for the videoId is present in
  active_streams, and likewise whenever the stored file is already gone;
  when no record exists and the file is still present — whether or not a
  session had been opened earlier — it deletes the stored file and
  removes every Dedup Index entry owned by the videoId. -/
theorem retention_timer_spec (s expiry : SysState)
    (file_hash video_id save_path : String)
    (hnew : lookupHash s file_hash = none) :
    (post_process s file_hash video_id save_path).timer = some (15 * 60) ∧
    (expiry.active.contains video_id = true →
      delete_if_not_streamed expiry video_id save_path = expiry) ∧
    (expiry.active.contains video_id = false →
      expiry.files.contains save_path = false →
      delete_if_not_streamed expiry video_id save_path = expiry) ∧
    (expiry.active.contains video_id = false →
      expiry.files.contains save_path = true →
      save_path ∉ (delete_if_not_streamed expiry video_id save_path).files ∧
      (∀ pr ∈ (delete_if_not_streamed expiry video_id save_path).video_hashes,
        pr.2 ≠ video_id)) := by
  have hf := lookupHash_none_find s file_hash hnew
  refine ⟨?_, ?_, ?_, ?_⟩
  · unfold post_process
    rw [hf]
  · intro ha
    unfold delete_if_not_streamed
    rw [ha]
    simp
  · intro ha hfile
    unfold delete_if_not_streamed
    rw [ha, hfile]
    simp
  · intro ha hfile
    unfold delete_if_not_streamed
    rw [ha, hfile]
    simp only [Bool.false_eq_true, if_false, if_true]
    exact ⟨not_mem_filter_beq_self _ _, mem_filter_snd_ne _ _⟩

theorem retention_timer_spec_witness :
    (post_process ⟨["uploads/a_v1.mp4"], [], []⟩ "h1" "v1"
      "uploads/a_v1.mp4").timer = some (15 * 60) ∧
    "uploads/a_v1.mp4" ∉
      (delete_if_not_streamed ⟨["uploads/a_v1.mp4"], [("h1", "v1")], []⟩ "v1"
        "uploads/a_v1.mp4").files :=
  ⟨(retention_timer_spec ⟨["uploads/a_v1.mp4"], [], []⟩
      ⟨["uploads/a_v1.mp4"], [("h1", "v1")], []⟩ "h1" "v1" "uploads/a_v1.mp4"
      (by decide)).1,
   ((retention_timer_spec ⟨["uploads/a_v1.mp4"], [], []⟩
      ⟨["uploads/a_v1.mp4"], [("h1", "v1")], []⟩ "h1" "v1" "uploads/a_v1.mp4"
      (by decide)).2.2.2 (by decide) (by decide)).1⟩

/-- C7 counterexample: the expiry action of the retention timer is not a
  no-op for every asset whose session has been opened by expiry time.
  Concrete run: after a non-duplicate upload of v1, a session for v1 is
  opened; while its record is present the callback indeed changes
  nothing; but once the record has been popped with the stored file still
  present — reachable because the post-stream deletion retry loop can
  exhaust its five attempts leaving file and hash entries behind, and
  because a stop pops the record before the finally block of the monitor
  removes the file — the callback deletes the file and the hash entries,
  so the expiry action changes the state even though a session had been
  opened. -/
theorem retention_expiry_after_session_counterexample :
    "v1" ∈ (sysSessionOpen ⟨["uploads/a_v1.mp4"], [("H", "v1")], []⟩ "v1").active ∧
    delete_if_not_streamed (sysSessionOpen ⟨["uploads/a_v1.mp4"], [("H", "v1")], []⟩ "v1")
      "v1" "uploads/a_v1.mp4" =
      sysSessionOpen ⟨["uploads/a_v1.mp4"], [("H", "v1")], []⟩ "v1" ∧
    delete_if_not_streamed
      (sysSessionPop (sysSessionOpen ⟨["uploads/a_v1.mp4"], [("H", "v1")], []⟩ "v1") "v1")
      "v1" "uploads/a_v1.mp4" ≠
      sysSessionPop (sysSessionOpen ⟨["uploads/a_v1.mp4"], [("H", "v1")], []⟩ "v1") "v1" ∧
    "uploads/a_v1.mp4" ∉ (delete_if_not_streamed
      (sysSessionPop (sysSessionOpen ⟨["uploads/a_v1.mp4"], [("H", "v1")], []⟩ "v1") "v1")
      "v1" "uploads/a_v1.mp4").files := by
  decide

/-- C3: terminal statuses are not terminal on the code.  Two program
  traces that respect the program order of the monitor thread (okTrace):
  in the first, the except path of run_ffmpeg_stream sets status error,
  the finally cleanup terminates the process, and a later
  get_stream_status rewrites the terminal error to completed.  In the
  second, the child process exits during the five second settle sleep, a
  status query reconciles the session to completed, and the monitor
  thread then sets status live, leaving terminal completed. -/
theorem terminal_status_overwritten :
    (okTrace [.eRecord, .eError, .eCleanup, .eGet] ∧
      statusAfter [.eRecord, .eError] = some .error ∧
      statusAfter [.eRecord, .eError, .eCleanup] = some .error ∧
      statusAfter [.eRecord, .eError, .eCleanup, .eGet] = some .completed) ∧
    (okTrace [.eRecord, .eProcExit, .eGet, .eLive] ∧
      statusAfter [.eRecord, .eProcExit, .eGet] = some .completed ∧
      statusAfter [.eRecord, .eProcExit, .eGet, .eLive] = some .live) := by
  unfold okTrace
  decide

/-- C4 counterexample: POST /start/vid1 with an unrecognized platform
  such as mastodon does not fail with a 400-class error: with all four
  required fields present and a stored file matching the videoId, the
  endpoint answers 200 whatever the platform value is (start_stream never
  inspects it), even though the platform dispatch has no entry for it. -/
theorem invalid_platform_not_4xx :
    output_url "mastodon" "k" = none ∧
    start_stream ["user_vid1.mp4"] "vid1"
      ["streamKey", "loops", "taskId", "platform"] = 200 ∧
    ¬(400 ≤ 200 ∧ 200 < 500) := by
  refine ⟨rfl, by decide, by decide⟩

/-- C4 amended: a start request whose platform value is outside the fixed
  enumeration is answered 200 by the endpoint (fields present, file
  found); the background run_ffmpeg_stream task then returns the
  unsupported-platform message before any child process is spawned and
  before any Session is written to the registry. -/
theorem invalid_platform_no_spawn (st : LaunchState) (video_path stream_key : String)
    (loops : Nat) (video_id platform : String) (uploads body : List String)
    (hplat : platform ∉ ["youtube", "facebook", "instagram", "twitter"])
    (hfields : (["streamKey", "loops", "taskId", "platform"].all
      (fun f => body.contains f)) = true)
    (hfile : (uploads.filter (fun f => strContainsSub f video_id)).isEmpty = false) :
    start_stream uploads video_id body = 200 ∧
    run_ffmpeg_stream st video_path stream_key loops video_id platform =
      (st, some ("Unsupported platform: " ++ platform)) := by
  simp only [List.mem_cons, List.not_mem_nil, or_false, not_or] at hplat
  obtain ⟨h1, h2, h3, h4⟩ := hplat
  constructor
  · unfold start_stream
    rw [hfields, hfile]
    simp
  · have hurl : output_url platform stream_key = none := by
      unfold output_url
      simp [h1, h2, h3, h4]
    unfold run_ffmpeg_stream
    rw [hurl]

theorem invalid_platform_no_spawn_witness :
    start_stream ["user_vid1.mp4"] "vid1"
      ["streamKey", "loops", "taskId", "platform"] = 200 ∧
    run_ffmpeg_stream ⟨[], []⟩ "uploads/user_vid1.mp4" "k" 0 "vid1" "mastodon" =
      (⟨[], []⟩, some ("Unsupported platform: " ++ "mastodon")) :=
  invalid_platform_no_spawn ⟨[], []⟩ "uploads/user_vid1.mp4" "k" 0 "vid1" "mastodon"
    ["user_vid1.mp4"] ["streamKey", "loops", "taskId", "platform"]
    (by decide) (by decide) (by decide)

/-- C5: a second start request for a videoId that already has a live
  session is not rejected: the endpoint answers 200 (it never consults
  the registry), and the background task hands a second command to
  subprocess.Popen and overwrites the existing Session slot with a fresh
  record in status starting. -/
theorem second_start_spawns_again :
    start_stream ["user_vid1.mp4"] "vid1"
      ["streamKey", "loops", "taskId", "platform"] = 200 ∧
    (run_ffmpeg_stream ⟨[("vid1", ⟨.live, true, false⟩)], ["cmd1"]⟩
      "uploads/user_vid1.mp4" "k" 0 "vid1" "youtube").1.spawnedCmds.length = 2 ∧
    regLookup (run_ffmpeg_stream ⟨[("vid1", ⟨.live, true, false⟩)], ["cmd1"]⟩
      "uploads/user_vid1.mp4" "k" 0 "vid1" "youtube").1.registry "vid1" =
      some ⟨.starting, true, false⟩ ∧
    (run_ffmpeg_stream ⟨[("vid1", ⟨.live, true, false⟩)], ["cmd1"]⟩
      "uploads/user_vid1.mp4" "k" 0 "vid1" "youtube").2 = none := by
  decide

/-- C6: the stop path answers 404 with the registry unchanged on an
  unknown videoId; for an existing session it answers 200, invokes the
  cleanup path on the stored process, writes status stopped, removes the
  record at once and a subsequent status query answers 404 — but the
  cleanup does not guarantee termination: a child that honors terminate
  exits, while a terminate-ignoring child survives cleanup_process,
  because the TimeoutExpired raised by process.wait(timeout=5) is
  swallowed by the catch-all except and process.kill() is never
  reached. -/
theorem stop_terminate_ignoring_survives :
    stop_stream [] "v" = ⟨404, [], none, false⟩ ∧
    (stop_stream [("v", ⟨.live, true, false⟩)] "v").httpStatus = 200 ∧
    (stop_stream [("v", ⟨.live, true, false⟩)] "v").statusWritten = some .stopped ∧
    (stop_stream [("v", ⟨.live, true, false⟩)] "v").cleanupInvoked = true ∧
    regLookup (stop_stream [("v", ⟨.live, true, false⟩)] "v").registry "v" = none ∧
    (get_stream_status (stop_stream [("v", ⟨.live, true, false⟩)] "v").registry "v").1
      = 404 ∧
    (cleanup_process ⟨true, true⟩).running = false ∧
    (cleanup_process ⟨true, false⟩).running = true := by
  decide

/-- C8: for every recognized platform the destination URL built for the
  child-process command is the fixed template with the callers streamKey
  substituted; for instagram it is an rtmps URL whose path component
  rtmp/streamKey follows a slash-free ingest host. -/
theorem platform_destination_urls (stream_key : String) :
    output_url "youtube" stream_key =
      some ("rtmp://a.rtmp.youtube.com/live2/" ++ stream_key) ∧
    output_url "facebook" stream_key =
      some ("rtmps://live-api-s.facebook.com:443/rtmp/" ++ stream_key) ∧
    (∃ host, output_url "instagram" stream_key =
      some (("rtmps://" ++ host ++ "/rtmp/") ++ stream_key) ∧
      host.toList.contains '/' = false) ∧
    output_url "twitter" stream_key =
      some ("rtmps://live.twitter.com/" ++ stream_key) := by
  refine ⟨rfl, rfl, ⟨"edgetee-upload-del2-1.xx.fbcdn.net:443", ?_, by decide⟩, rfl⟩
  have h : ("rtmps://" ++ "edgetee-upload-del2-1.xx.fbcdn.net:443" ++ "/rtmp/") =
      "rtmps://edgetee-upload-del2-1.xx.fbcdn.net:443/rtmp/" := by decide
  rw [h]
  rfl

/-- C9: when the cache entry of the symbol is younger than the 30 second
  TTL, nse_index returns the cached upstream JSON unchanged with the
  cache untouched, and the outcome is the same whatever the upstream
  would answer (no upstream call); when the entry is missing or stale and
  the upstream call fails, the endpoint returns the error body with HTTP
  status 500 and the cache is left unchanged. -/
theorem nse_index_cache_spec (cache : List (String × CacheEntry)) (symbol : String)
    (now : Nat) :
    (∀ entry, cacheLookup cache symbol = some entry → now - entry.timestamp < 30 →
      ∀ upstream, nse_index cache symbol now upstream = ((200, entry.data), cache)) ∧
    (∀ msg, (cacheLookup cache symbol = none ∨
        ∃ e, cacheLookup cache symbol = some e ∧ ¬(now - e.timestamp < 30)) →
      nse_index cache symbol now (Except.error msg) = ((500, msg), cache)) := by
  constructor
  · intro entry h hfresh upstream
    simp [nse_index, h, hfresh]
  · intro msg h
    rcases h with h | ⟨e, he, hstale⟩
    · simp [nse_index, h, nse_fetch]
    · simp [nse_index, he, hstale, nse_fetch]

theorem nse_index_cache_spec_witness :
    nse_index [("NIFTY", ⟨"chain-json", 100⟩)] "NIFTY" 110 (Except.ok "other") =
      ((200, "chain-json"), [("NIFTY", ⟨"chain-json", 100⟩)]) ∧
    nse_index [("NIFTY", ⟨"chain-json", 100⟩)] "NIFTY" 200 (Except.error "boom") =
      ((500, "boom"), [("NIFTY", ⟨"chain-json", 100⟩)]) :=
  ⟨(nse_index_cache_spec [("NIFTY", ⟨"chain-json", 100⟩)] "NIFTY" 110).1
      ⟨"chain-json", 100⟩ (by decide) (by decide) (Except.ok "other"),
   (nse_index_cache_spec [("NIFTY", ⟨"chain-json", 100⟩)] "NIFTY" 200).2
      "boom" (Or.inr ⟨⟨"chain-json", 100⟩, by decide, by decide⟩)⟩

/-- C10: every successful upload response carries duration = 120, a
  constant independent of the uploaded bytes: the same request with any
  other byte content yields the very same response. -/
theorem upload_duration_constant (email orig_filename : String) (c1 c2 : List Nat)
    (video_id : String) (r : UploadResponse) (stored : List Nat)
    (h : upload_video email orig_filename c1 video_id = Except.ok (r, stored)) :
    r.duration = 120 ∧
    upload_video email orig_filename c2 video_id = Except.ok (r, c2) := by
  unfold upload_video at h ⊢
  by_cases h0 : orig_filename = ""
  · rw [if_pos h0] at h
    simp at h
  · rw [if_neg h0] at h ⊢
    cases h1 : allowed_file orig_filename with
    | false =>
      rw [h1] at h
      simp at h
    | true =>
      rw [h1] at h
      rw [if_pos rfl] at h ⊢
      simp only [Except.ok.injEq, Prod.mk.injEq] at h
      obtain ⟨hr, hc⟩ := h
      subst hr
      exact ⟨rfl, rfl⟩

theorem upload_duration_constant_witness :
    (⟨"File uploaded successfully", "id1", "a@b_id1.mp4", 120⟩ :
      UploadResponse).duration = 120 ∧
    upload_video "a@b" "v.mp4" [9, 9] "id1" =
      Except.ok (⟨"File uploaded successfully", "id1", "a@b_id1.mp4", 120⟩, [9, 9]) :=
  upload_duration_constant "a@b" "v.mp4" [1] [9, 9] "id1"
    ⟨"File uploaded successfully", "id1", "a@b_id1.mp4", 120⟩ [1] (by rfl)

end Devv
